import Mathlib

/-!
Verification of the `siemens_plc` industrial gateway library.

This file embeds, as executable Lean definitions, the parts of the
`industrial-siemens-lib` Python sources that the specification's claims are
about: the Modbus register codec (`protocols/modbus.py`), the S7 driver's
read/write request construction (`protocols/s7.py`), the memory-area table
and address resolver (`areas.py`), the PLC-to-PLC replication registry and
sync loop (`communication/plc_plc.py`), the per-driver statistics update
(`protocols/base.py`), and the VFD facade (`communication/vfd_communication.py`).

Machine integers are modelled as `Nat`/`Int` with explicit reduction modulo
`2 ^ w` where the Python code masks or packs at width `w`.  IEEE-754 float32
values are represented by their 32-bit big-endian bit patterns: on values
representable at single precision, `struct.pack` of the float and the
big-endian split of its bit pattern are the same bytes, so register-level
packing and unpacking are captured exactly.
-/

set_option maxRecDepth 4000

/-! ## Modbus register codec (`siemens_plc/protocols/modbus.py`) -/

/-- Python `int(v) & 0xFFFF`: the mathematical residue of `v` modulo `2 ^ 16`
(Python's `&` on negative ints follows two's complement, which is exactly the
nonnegative residue). -/
def mask16 (v : Int) : Nat := (v % 65536).toNat

/-- Reinterpretation of a 16-bit register as a signed 16-bit integer:
`struct.unpack('>h', struct.pack('>H', reg))[0]` in
`ModbusProtocol._convert_registers_to_data`. -/
def to_signed16 (r : Nat) : Int :=
  if r < 32768 then (r : Int) else (r : Int) - 65536

/-- Reinterpretation of a 32-bit word as a signed 32-bit integer:
`struct.unpack('>i', struct.pack('>I', value))[0]`. -/
def to_signed32 (u : Nat) : Int :=
  if u < 2147483648 then (u : Int) else (u : Int) - 4294967296

/-- The pairing loop `for i in range(0, len(registers), 2)` guarded by
`i + 1 < len(registers)`: consecutive register pairs, a trailing odd register
is dropped. -/
def pair_words : List Nat → List (Nat × Nat)
  | r0 :: r1 :: rest => (r0, r1) :: pair_words rest
  | _ => []

/-- The combination `(registers[i] << 16) | registers[i + 1]` used by the
`uint32`/`int32` decode branches; the `float32` branch packs
`struct.pack('>HH', r0, r1)` and unpacks `'>f'`, which yields the float whose
bit pattern is this same word. -/
def combine_words (p : Nat × Nat) : Nat := (p.1 <<< 16) ||| p.2

/-- Embedding of `ModbusProtocol._convert_registers_to_data`.  Decoded values
are returned as `Int`; a decoded `float32` is represented by its 32-bit bit
pattern. -/
def convert_registers_to_data (registers : List Nat) (data_type : String) : List Int :=
  if data_type = "uint16" then registers.map (fun r => (r : Int))
  else if data_type = "int16" then registers.map to_signed16
  else if data_type = "uint32" then (pair_words registers).map (fun p => (combine_words p : Int))
  else if data_type = "int32" then (pair_words registers).map (fun p => to_signed32 (combine_words p))
  else if data_type = "float32" then (pair_words registers).map (fun p => (combine_words p : Int))
  else registers.map (fun r => (r : Int))

/-- `struct.pack('>h', v)` reinterpreted as an unsigned 16-bit register;
`struct.error` (value out of the signed 16-bit range) is `none`. -/
def pack_int16 (v : Int) : Option Nat :=
  if -32768 ≤ v ∧ v ≤ 32767 then some (mask16 v) else none

/-- The `uint32` encode branch `[(int(value) >> 16) & 0xFFFF, int(value) & 0xFFFF]`
(Python's `>>` is an arithmetic shift, i.e. floor division). -/
def uint32_words (v : Int) : List Nat :=
  [((v.fdiv 65536) % 65536).toNat, mask16 v]

/-- The `int32` encode branch: `struct.pack('>i', int(value))` then
`struct.unpack('>HH', …)`; out-of-range values raise `struct.error` (`none`).
The packed word is the two's-complement residue of `v` modulo `2 ^ 32`. -/
def pack_int32_words (v : Int) : Option (List Nat) :=
  if -2147483648 ≤ v ∧ v ≤ 2147483647 then
    some [((v % 4294967296).toNat) / 65536, mask16 v]
  else none

/-- The `float32` encode branch `struct.pack('>f', float(value))` then
`struct.unpack('>HH', …)`: with `v` the 32-bit IEEE-754 pattern of the value,
the two registers are the big-endian halves of that pattern. -/
def float32_words (v : Int) : List Nat :=
  [((v % 4294967296).toNat) / 65536, mask16 v]

/-- Embedding of `ModbusProtocol._convert_single_value_to_register` (the
single-register write path of `write_data`). -/
def convert_single_value_to_register (value : Int) (data_type : String) : Option Nat :=
  if data_type = "uint16" then some (mask16 value)
  else if data_type = "int16" then pack_int16 value
  else some (mask16 value)

/-- Registers contributed by one value in
`ModbusProtocol._convert_data_to_registers`. -/
def regs_of_value (value : Int) (data_type : String) : Option (List Nat) :=
  if data_type = "uint16" then some [mask16 value]
  else if data_type = "int16" then (pack_int16 value).map (fun r => [r])
  else if data_type = "uint32" then some (uint32_words value)
  else if data_type = "int32" then pack_int32_words value
  else if data_type = "float32" then some (float32_words value)
  else some [mask16 value]

/-- Embedding of `ModbusProtocol._convert_data_to_registers`: the loop over
`values` extends the register list; a `struct.error` anywhere aborts the
call. -/
def convert_data_to_registers : List Int → String → Option (List Nat)
  | [], _ => some []
  | v :: vs, dt => do
      let rs ← regs_of_value v dt
      let rest ← convert_data_to_registers vs dt
      pure (rs ++ rest)

/-! ## Memory areas (`siemens_plc/areas.py`) and the S7 driver (`protocols/s7.py`) -/

/-- The `MemoryArea` enumeration of `areas.py`. -/
inductive MemoryArea where
  | PE | PA | MK | DB | TM | CT | SYS | SYS_INFO | SYS_FLAGS
deriving DecidableEq, Repr

/-- The `read_only` flags of `Areas.AREA_INFO` (consulted by
`Areas.is_read_only`): PE and the SYS* areas are declared read-only. -/
def is_read_only : MemoryArea → Bool
  | .PE => true
  | .PA => false
  | .MK => false
  | .DB => false
  | .TM => false
  | .CT => false
  | .SYS => true
  | .SYS_INFO => true
  | .SYS_FLAGS => true

/-- The `snap7_code` column of `Areas.AREA_INFO`. -/
def snap7_code : MemoryArea → Nat
  | .PE => 129
  | .PA => 130
  | .MK => 131
  | .DB => 132
  | .TM => 29
  | .CT => 28
  | .SYS => 3
  | .SYS_INFO => 4
  | .SYS_FLAGS => 5

/-- Embedding of `S7Protocol._get_area_from_data_type` (identical in the
Profibus driver): the request's `data_type` string selects the memory area;
anything unrecognised defaults to DB. -/
def get_area_from_data_type (data_type : String) : MemoryArea :=
  if data_type = "input" then .PE
  else if data_type = "output" then .PA
  else if data_type = "mark" then .MK
  else if data_type = "data_block" then .DB
  else if data_type = "counter" then .CT
  else if data_type = "timer" then .TM
  else .DB

/-- A driver read request (`ReadRequest` in `protocols/base.py`, with a
numeric address as the S7 driver uses it). -/
structure ReadReq where
  address : Nat
  count : Nat
  data_type : String
deriving DecidableEq, Repr

/-- A driver write request (`WriteRequest` in `protocols/base.py`). -/
structure WriteReq where
  address : Nat
  value : Int
  data_type : String
deriving DecidableEq, Repr

/-- The `read_area` invocation built by `S7Protocol.read_data`. -/
structure S7ReadCall where
  area : MemoryArea
  db_number : Nat
  offset : Nat
  length_bytes : Nat
deriving DecidableEq, Repr

/-- Embedding of the transport call issued by `S7Protocol.read_data`:
`self._client.read_area(area, 0, int(request.address), request.count * 2)` —
the byte length is `count * 2` for every `data_type`. -/
def s7_read_call (req : ReadReq) : S7ReadCall :=
  { area := get_area_from_data_type req.data_type
    db_number := 0
    offset := req.address
    length_bytes := req.count * 2 }

/-- Byte stride per element used by `S7Protocol._convert_bytes_to_data` when
decoding a buffer of the given `data_type` (the step of each `range` loop,
i.e. the byte width the decode expects per element). -/
def s7_type_width (data_type : String) : Nat :=
  if data_type = "bool" then 1
  else if data_type = "uint8" then 1
  else if data_type = "int8" then 1
  else if data_type = "uint16" then 2
  else if data_type = "int16" then 2
  else if data_type = "uint32" then 4
  else if data_type = "int32" then 4
  else if data_type = "float32" then 4
  else if data_type = "float64" then 8
  else if data_type = "string" then 84
  else 1

/-- The `write_area` invocation built by `S7Protocol.write_data`.  The write
path computes the area from the request's `data_type`, converts the value to
bytes and calls `write_area` directly; it contains no address validation and
never consults `Areas.is_read_only`, so there is no rejection path before the
transport write. -/
structure S7WriteCall where
  area : MemoryArea
  db_number : Nat
  offset : Nat
deriving DecidableEq, Repr

/-- Embedding of the transport call issued by `S7Protocol.write_data`:
`self._client.write_area(area, 0, int(request.address), data_bytes)`. -/
def s7_write_call (req : WriteReq) : S7WriteCall :=
  { area := get_area_from_data_type req.data_type
    db_number := 0
    offset := req.address }

/-! ## Address resolver (`AddressParser.parse_address` in `siemens_plc/areas.py`) -/

/-- The dictionary a matched pattern produces in `parse_address`: the common
keys `area`, `type`, `size` plus the pattern-specific optional fields. -/
structure ParsedAddress where
  area : MemoryArea
  type : String
  size : Nat
  byte : Option Nat := none
  bit : Option Nat := none
  db_number : Option Nat := none
  number : Option Nat := none
deriving DecidableEq, Repr

/-- Decimal value of a digit string (used after `parse_digits` has checked
every character is a digit). -/
def digits_val (cs : List Char) : Nat :=
  cs.foldl (fun a c => a * 10 + (c.toNat - 48)) 0

/-- A regex group `(\d+)`: one or more decimal digits. -/
def parse_digits (cs : List Char) : Option Nat :=
  if cs ≠ [] ∧ cs.all Char.isDigit then some (digits_val cs) else none

/-- Splitting a character list at every literal dot, mirroring the `\.`
separators of the address regexes. -/
def split_dots : List Char → List (List Char)
  | [] => [[]]
  | c :: cs =>
    let r := split_dots cs
    if c = '.' then [] :: r
    else (c :: r.headD []) :: r.tail

/-- One of the regexes `^I(\d+)\.(\d+)$`, `^Q(\d+)\.(\d+)$`, `^M(\d+)\.(\d+)$`
or their match dictionaries: a bit address with an unconstrained decimal bit
group. -/
def try_bit_pattern (c0 : Char) (ar : MemoryArea) (cs : List Char) : Option ParsedAddress :=
  match cs with
  | c :: rest =>
    if c = c0 then
      match split_dots rest with
      | [a, b] =>
        match parse_digits a, parse_digits b with
        | some byteN, some bitN =>
          some { area := ar, type := "bit", size := 1, byte := some byteN, bit := some bitN }
        | _, _ => none
      | _ => none
    else none
  | [] => none

/-- One of the single-width regexes `^IB(\d+)$` … `^MD(\d+)$`. -/
def try_fixed_width (c0 c1 : Char) (ar : MemoryArea) (ty : String) (sz : Nat)
    (cs : List Char) : Option ParsedAddress :=
  match cs with
  | a :: b :: rest =>
    if a = c0 ∧ b = c1 then
      match parse_digits rest with
      | some byteN => some { area := ar, type := ty, size := sz, byte := some byteN }
      | none => none
    else none
  | _ => none

/-- The regex `^DB(\d+)\.DB([BWD])(\d+)$` with its width map
`{'b': 1, 'w': 2, 'd': 4}` and lower-cased `type`. -/
def try_db_word (cs : List Char) : Option ParsedAddress :=
  match split_dots cs with
  | [p0, p1] =>
    match p0, p1 with
    | 'D' :: 'B' :: ds0, 'D' :: 'B' :: w :: ds1 =>
      if w = 'B' ∨ w = 'W' ∨ w = 'D' then
        match parse_digits ds0, parse_digits ds1 with
        | some dbN, some byteN =>
          some { area := .DB
                 type := if w = 'B' then "b" else if w = 'W' then "w" else "d"
                 size := if w = 'B' then 1 else if w = 'W' then 2 else 4
                 db_number := some dbN, byte := some byteN }
        | _, _ => none
      else none
    | _, _ => none
  | _ => none

/-- The regex `^DB(\d+)\.DBX(\d+)\.(\d+)$`: a data-block bit address, again
with an unconstrained decimal bit group. -/
def try_db_bit (cs : List Char) : Option ParsedAddress :=
  match split_dots cs with
  | [p0, p1, p2] =>
    match p0, p1 with
    | 'D' :: 'B' :: ds0, 'D' :: 'B' :: 'X' :: ds1 =>
      match parse_digits ds0, parse_digits ds1, parse_digits p2 with
      | some dbN, some byteN, some bitN =>
        some { area := .DB, type := "bit", size := 1
               db_number := some dbN, byte := some byteN, bit := some bitN }
      | _, _, _ => none
    | _, _ => none
  | _ => none

/-- The regexes `^T(\d+)$` and `^C(\d+)$` (timers and counters, width 2). -/
def try_numbered (c0 : Char) (ar : MemoryArea) (ty : String) (cs : List Char) :
    Option ParsedAddress :=
  match cs with
  | c :: rest =>
    if c = c0 then
      match parse_digits rest with
      | some n => some { area := ar, type := ty, size := 2, number := some n }
      | none => none
    else none
  | [] => none

/-- The pattern dictionary of `AddressParser.parse_address`, in its insertion
(and therefore trial) order. -/
def address_patterns : List (List Char → Option ParsedAddress) :=
  [try_bit_pattern 'I' .PE, try_bit_pattern 'Q' .PA, try_bit_pattern 'M' .MK,
   try_fixed_width 'I' 'B' .PE "byte" 1, try_fixed_width 'Q' 'B' .PA "byte" 1,
   try_fixed_width 'M' 'B' .MK "byte" 1,
   try_fixed_width 'I' 'W' .PE "word" 2, try_fixed_width 'Q' 'W' .PA "word" 2,
   try_fixed_width 'M' 'W' .MK "word" 2,
   try_fixed_width 'I' 'D' .PE "dword" 4, try_fixed_width 'Q' 'D' .PA "dword" 4,
   try_fixed_width 'M' 'D' .MK "dword" 4,
   try_db_word, try_db_bit,
   try_numbered 'T' .TM "timer", try_numbered 'C' .CT "counter"]

/-- Embedding of `AddressParser.parse_address`: the first matching pattern
wins; no pattern matching is the `ValueError` (`none`) case. -/
def parse_address (address : String) : Option ParsedAddress :=
  address_patterns.findSome? (fun p => p address.toList)

/-! ## PLC-to-PLC replication (`siemens_plc/communication/plc_plc.py`) -/

/-- The `PLCNode` dataclass (the owning protocol object is abstracted away;
connection outcomes are passed to `add_plc` explicitly). -/
structure PLCNode where
  id : String
  name : String
  is_master : Bool := false
  sync_interval : Nat := 1000
  priority : Nat := 1
  enabled : Bool := true
deriving DecidableEq, Repr

/-- The `DataMapping` dataclass. -/
structure DataMapping where
  source_plc : String
  source_address : String
  source_data_type : String
  target_plc : String
  target_address : String
  target_data_type : String
  sync_mode : String := "continuous"
  sync_interval : Nat := 1000
  enabled : Bool := true
deriving DecidableEq, Repr

/-- The registry state of `PLCToPLCCommunication`: `self.plcs` (a dict keyed
by node id, modelled as a list of nodes in insertion order) and
`self.data_mappings`. -/
structure CommState where
  plcs : List PLCNode
  mappings : List DataMapping
deriving DecidableEq, Repr

/-- Membership test `plc_id in self.plcs` (dict-key containment). -/
def has_plc (st : CommState) (pid : String) : Bool :=
  st.plcs.any (fun p => p.id == pid)

/-- Embedding of `PLCToPLCCommunication.add_plc`: a duplicate id or a failed
`connect()` leaves the registry unchanged and returns `False`; otherwise the
node is inserted. -/
def add_plc (st : CommState) (node : PLCNode) (connect_ok : Bool) : Bool × CommState :=
  if has_plc st node.id then (false, st)
  else if connect_ok then (true, { st with plcs := st.plcs ++ [node] })
  else (false, st)

/-- Embedding of `PLCToPLCCommunication.remove_plc`: the node is deleted from
`self.plcs`; `self.data_mappings` is not touched. -/
def remove_plc (st : CommState) (pid : String) : Bool × CommState :=
  if has_plc st pid then
    (true, { st with plcs := st.plcs.filter (fun p => p.id != pid) })
  else (false, st)

/-- Embedding of `PLCToPLCCommunication.add_data_mapping`: both endpoint ids
must be registered (otherwise the raised `CommunicationError` is caught and
`False` is returned with the state unchanged); on success the mapping is
appended. -/
def add_data_mapping (st : CommState) (m : DataMapping) : Bool × CommState :=
  if has_plc st m.source_plc then
    if has_plc st m.target_plc then
      (true, { st with mappings := st.mappings ++ [m] })
    else (false, st)
  else (false, st)

/-- Embedding of the per-iteration body of the `sync_loop` closure in
`PLCToPLCCommunication._start_sync_for_plc`: the mappings that are actually
synced in one pass for master node `plc_id` are those whose source is that
node, that are enabled, and whose `sync_mode` equals `"continuous"`. -/
def sync_iteration_mappings (mappings : List DataMapping) (plc_id : String) :
    List DataMapping :=
  mappings.filter (fun m =>
    m.source_plc == plc_id && m.enabled && m.sync_mode == "continuous")

/-! ## Per-driver statistics (`BaseProtocol._update_statistics` in
`siemens_plc/protocols/base.py`) -/

/-- The statistics fields of `ProtocolStatus` touched by
`_update_statistics`; response times are taken in exact (rational)
arithmetic. -/
structure ProtocolStats where
  success_count : Nat
  error_count : Nat
  response_time_avg : ℚ
deriving DecidableEq, Repr

/-- Embedding of `BaseProtocol._update_statistics`: one of the two counters
is incremented, then the running mean is replaced by the sample if the new
total is 1 and otherwise by `(avg * (total - 1) + sample) / total`, `total`
being the post-increment `success_count + error_count`. -/
def update_statistics (st : ProtocolStats) (success : Bool) (response_time : ℚ) :
    ProtocolStats :=
  let st1 := if success then { st with success_count := st.success_count + 1 }
             else { st with error_count := st.error_count + 1 }
  let total := st1.success_count + st1.error_count
  if total = 1 then { st1 with response_time_avg := response_time }
  else
    { st1 with response_time_avg :=
        (st1.response_time_avg * ((total : ℚ) - 1) + response_time) / (total : ℚ) }

/-! ## VFD facade (`siemens_plc/communication/vfd_communication.py`) -/

/-- The `VFDStatus` enumeration. -/
inductive VFDStatus where
  | stopped | running | accelerating | decelerating | fault | warning | ready | unknown
deriving DecidableEq, Repr

/-- Embedding of `VFDCommunication._decode_status`: masks are tested from the
fault bit downwards, so the first set bit in the order
`0x8000, 0x4000, 0x0001, 0x0002, 0x0004, 0x0008` decides the status. -/
def decode_status (status_value : Nat) : VFDStatus :=
  if status_value &&& 0x8000 ≠ 0 then .fault
  else if status_value &&& 0x4000 ≠ 0 then .warning
  else if status_value &&& 0x0001 ≠ 0 then .running
  else if status_value &&& 0x0002 ≠ 0 then .accelerating
  else if status_value &&& 0x0004 ≠ 0 then .decelerating
  else if status_value &&& 0x0008 ≠ 0 then .ready
  else .stopped

/-- Embedding of the `running` flag computed by
`VFDCommunication._read_status`: `value & 0x01 != 0`. -/
def read_status_running (status_value : Nat) : Bool :=
  status_value &&& 0x01 != 0

/-- A `WriteRequest` as built by the VFD facade (values are rational to
carry both command integers and float setpoints exactly). -/
structure VFDWriteRequest where
  address : Nat
  value : ℚ
  data_type : String
deriving DecidableEq, Repr

/-- The generic register map returned by
`VFDCommunication._get_register_map`, as accessed through
`self.register_map.get(name, 0)`. -/
def vfd_register_map (k : String) : Nat :=
  if k = "start_command" then 0x0001
  else if k = "stop_command" then 0x0002
  else if k = "frequency_setpoint" then 0x2000
  else if k = "speed_setpoint" then 0x2001
  else if k = "torque_setpoint" then 0x2002
  else if k = "output_frequency" then 0x2100
  else if k = "output_speed" then 0x2101
  else if k = "output_current" then 0x2102
  else if k = "output_voltage" then 0x2103
  else if k = "output_power" then 0x2104
  else if k = "output_torque" then 0x2105
  else if k = "status" then 0x2200
  else if k = "fault_code" then 0x2201
  else if k = "warning_code" then 0x2202
  else if k = "motor_temperature" then 0x2300
  else if k = "drive_temperature" then 0x2301
  else if k = "fault_reset" then 0x2400
  else 0

/-- Embedding of `VFDCommunication._write_register`: every write issued at
this chokepoint carries `data_type='float32'`, whatever the register. -/
def vfd_write_register (address : Nat) (value : ℚ) : VFDWriteRequest :=
  { address := address, value := value, data_type := "float32" }

/-- The request built by `VFDCommunication.start_drive` (writes `1` to the
start-command register). -/
def start_drive_request : VFDWriteRequest :=
  vfd_write_register (vfd_register_map "start_command") 1

/-- The request built by `VFDCommunication.stop_drive` (writes `1` to the
stop-command register). -/
def stop_drive_request : VFDWriteRequest :=
  vfd_write_register (vfd_register_map "stop_command") 1

/-- The request built by `VFDCommunication.reset_fault` (writes `1` to the
fault-reset register). -/
def reset_fault_request : VFDWriteRequest :=
  vfd_write_register (vfd_register_map "fault_reset") 1

/-- The request built by `VFDCommunication.set_frequency`: frequencies
outside `[0, max_frequency]` raise a `ValueError` and no write is issued. -/
def set_frequency_request (max_frequency f : ℚ) : Option VFDWriteRequest :=
  if f < 0 ∨ f > max_frequency then none
  else some (vfd_write_register (vfd_register_map "frequency_setpoint") f)

/-- The request built by `VFDCommunication.set_speed`. -/
def set_speed_request (max_speed s : ℚ) : Option VFDWriteRequest :=
  if s < 0 ∨ s > max_speed then none
  else some (vfd_write_register (vfd_register_map "speed_setpoint") s)

/-- The request built by `VFDCommunication.set_torque` (no bound at this
layer). -/
def set_torque_request (t : ℚ) : VFDWriteRequest :=
  vfd_write_register (vfd_register_map "torque_setpoint") t

/-! ## Theorems -/

theorem combine_words_eq (a c : Nat) (hc : c < 65536) :
    combine_words (a, c) = a * 65536 + c := by
  have h : c < 2 ^ 16 := by omega
  show (a <<< 16) ||| c = a * 65536 + c
  rw [Nat.shiftLeft_eq, Nat.mul_comm a, ← Nat.mul_add_lt_is_or h a]

theorem combine_words_split (w : Nat) :
    combine_words (w / 65536, w % 65536) = w := by
  rw [combine_words_eq _ _ (Nat.mod_lt _ (by norm_num))]
  omega

theorem uint32_words_high_low (v : Int) (h0 : 0 ≤ v) (h1 : v < 4294967296) :
    uint32_words v = [v.toNat / 65536, v.toNat % 65536] := by
  unfold uint32_words mask16
  rw [Int.fdiv_eq_ediv _ (by norm_num)]
  simp only [List.cons.injEq, and_true]
  constructor <;> omega

/-- C1: for every value representable as Modbus uint32, int32 or float32
(the latter identified with its IEEE-754 bit pattern), encoding into two
consecutive 16-bit registers and decoding the pair back with the same
`data_type` reproduces the value exactly, and the register at index 0 is the
high 16-bit word of the packed 32-bit image; in particular float32 `1.5`
(pattern `0x3FC00000`) packs to the register pair `[0x3FC0, 0x0000]`. -/
theorem c1_modbus_register_pair_roundtrip
    (u s b : Int)
    (hu0 : 0 ≤ u) (hu1 : u < 4294967296)
    (hs0 : -2147483648 ≤ s) (hs1 : s ≤ 2147483647)
    (hb0 : 0 ≤ b) (hb1 : b < 4294967296) :
    (convert_data_to_registers [u] "uint32" = some [u.toNat / 65536, u.toNat % 65536] ∧
      convert_registers_to_data [u.toNat / 65536, u.toNat % 65536] "uint32" = [u]) ∧
    (convert_data_to_registers [s] "int32" =
        some [(s % 4294967296).toNat / 65536, (s % 4294967296).toNat % 65536] ∧
      convert_registers_to_data
        [(s % 4294967296).toNat / 65536, (s % 4294967296).toNat % 65536] "int32" = [s]) ∧
    (convert_data_to_registers [b] "float32" = some [b.toNat / 65536, b.toNat % 65536] ∧
      convert_registers_to_data [b.toNat / 65536, b.toNat % 65536] "float32" = [b]) ∧
    convert_data_to_registers [1069547520] "float32" = some [16320, 0] := by
  refine ⟨⟨?_, ?_⟩, ⟨?_, ?_⟩, ⟨?_, ?_⟩, by decide⟩
  · have e : convert_data_to_registers [u] "uint32" = some (uint32_words u) := rfl
    rw [e, uint32_words_high_low u hu0 hu1]
  · have e : convert_registers_to_data [u.toNat / 65536, u.toNat % 65536] "uint32"
        = [(combine_words (u.toNat / 65536, u.toNat % 65536) : Int)] := rfl
    rw [e, combine_words_split]
    simp only [List.cons.injEq, and_true]
    omega
  · have e : convert_data_to_registers [s] "int32"
        = (pack_int32_words s).bind (fun rs => some (rs ++ [])) := rfl
    rw [e]
    unfold pack_int32_words
    rw [if_pos ⟨hs0, hs1⟩]
    simp only [Option.bind_some, List.append_nil, Option.some.injEq, List.cons.injEq,
      and_true, true_and]
    unfold mask16
    omega
  · have e : convert_registers_to_data
        [(s % 4294967296).toNat / 65536, (s % 4294967296).toNat % 65536] "int32"
        = [to_signed32 (combine_words
            ((s % 4294967296).toNat / 65536, (s % 4294967296).toNat % 65536))] := rfl
    rw [e, combine_words_split]
    simp only [List.cons.injEq, and_true]
    unfold to_signed32
    split <;> omega
  · have e : convert_data_to_registers [b] "float32" = some (float32_words b) := rfl
    rw [e]
    unfold float32_words mask16
    simp only [Option.some.injEq, List.cons.injEq, and_true]
    constructor <;> omega
  · have e : convert_registers_to_data [b.toNat / 65536, b.toNat % 65536] "float32"
        = [(combine_words (b.toNat / 65536, b.toNat % 65536) : Int)] := rfl
    rw [e, combine_words_split]
    simp only [List.cons.injEq, and_true]
    omega

/-- Witness for `c1_modbus_register_pair_roundtrip` at
`u = 305419896`, `s = -2`, `b = 0x3FC00000`. -/
theorem c1_modbus_register_pair_roundtrip_witness :
    (convert_data_to_registers [(305419896 : Int)] "uint32" =
        some [(305419896 : Int).toNat / 65536, (305419896 : Int).toNat % 65536] ∧
      convert_registers_to_data
        [(305419896 : Int).toNat / 65536, (305419896 : Int).toNat % 65536] "uint32" =
        [(305419896 : Int)]) ∧
    (convert_data_to_registers [(-2 : Int)] "int32" =
        some [((-2 : Int) % 4294967296).toNat / 65536, ((-2 : Int) % 4294967296).toNat % 65536] ∧
      convert_registers_to_data
        [((-2 : Int) % 4294967296).toNat / 65536, ((-2 : Int) % 4294967296).toNat % 65536]
        "int32" = [(-2 : Int)]) ∧
    (convert_data_to_registers [(1069547520 : Int)] "float32" =
        some [(1069547520 : Int).toNat / 65536, (1069547520 : Int).toNat % 65536] ∧
      convert_registers_to_data
        [(1069547520 : Int).toNat / 65536, (1069547520 : Int).toNat % 65536] "float32" =
        [(1069547520 : Int)]) ∧
    convert_data_to_registers [1069547520] "float32" = some [16320, 0] :=
  c1_modbus_register_pair_roundtrip 305419896 (-2) 1069547520
    (by norm_num) (by norm_num) (by norm_num) (by norm_num) (by norm_num) (by norm_num)

/-- C5 counterexample: the single-register uint16 encoder does not reject the
out-of-range value 65536; it masks it with `& 0xFFFF` and returns register 0,
so a register value is produced (and transmitted) instead of a `DataError`. -/
theorem c5_uint16_out_of_range_not_rejected :
    convert_single_value_to_register 65536 "uint16" = some 0 := by decide

/-- C5 (amended): in-range boundary values round-trip exactly — uint16 values
in `[0, 65535]` and int16 values in `[-32768, 32767]` encode to a single
register that decodes back to the same value — but an out-of-range uint16
value is not rejected: it is reduced modulo `2 ^ 16` (65536 encodes as
register 0). -/
theorem c5_modbus_single_register_boundaries
    (v w : Int) (hv0 : 0 ≤ v) (hv1 : v ≤ 65535) (hw0 : -32768 ≤ w) (hw1 : w ≤ 32767) :
    (convert_single_value_to_register v "uint16" = some v.toNat ∧
      convert_registers_to_data [v.toNat] "uint16" = [v]) ∧
    (convert_single_value_to_register w "int16" = some (mask16 w) ∧
      convert_registers_to_data [mask16 w] "int16" = [w]) ∧
    convert_single_value_to_register 65536 "uint16" = some 0 := by
  refine ⟨⟨?_, ?_⟩, ⟨?_, ?_⟩, by decide⟩
  · have e : convert_single_value_to_register v "uint16" = some (mask16 v) := rfl
    rw [e]
    unfold mask16
    simp only [Option.some.injEq]
    omega
  · have e : convert_registers_to_data [v.toNat] "uint16" = [(v.toNat : Int)] := rfl
    rw [e]
    simp only [List.cons.injEq, and_true]
    omega
  · have e : convert_single_value_to_register w "int16" = pack_int16 w := rfl
    rw [e]
    unfold pack_int16
    rw [if_pos ⟨hw0, hw1⟩]
  · have e : convert_registers_to_data [mask16 w] "int16" = [to_signed16 (mask16 w)] := rfl
    rw [e]
    simp only [List.cons.injEq, and_true]
    unfold to_signed16 mask16
    split <;> omega

/-- Witness for `c5_modbus_single_register_boundaries` at the boundary values
`v = 65535` and `w = -32768`. -/
theorem c5_modbus_single_register_boundaries_witness :
    (convert_single_value_to_register 65535 "uint16" = some (65535 : Int).toNat ∧
      convert_registers_to_data [(65535 : Int).toNat] "uint16" = [(65535 : Int)]) ∧
    (convert_single_value_to_register (-32768) "int16" = some (mask16 (-32768)) ∧
      convert_registers_to_data [mask16 (-32768)] "int16" = [(-32768 : Int)]) ∧
    convert_single_value_to_register 65536 "uint16" = some 0 :=
  c5_modbus_single_register_boundaries 65535 (-32768)
    (by norm_num) (by norm_num) (by norm_num) (by norm_num)

/-- C2 (code bug): `S7Protocol.read_data` always issues `read_area` with
`length_bytes = count * 2`, not `count * width(data_type)`: a count-1 float32
read requests 2 bytes although the driver's own decode
(`_convert_bytes_to_data`) consumes 4 bytes per float32 element, a count-1
uint8 read requests 2 bytes instead of 1, and a count-1 float64 read requests
2 bytes instead of 8. -/
theorem c2_s7_read_length_ignores_type_width :
    (s7_read_call { address := 0, count := 1, data_type := "float32" }).length_bytes = 2 ∧
    1 * s7_type_width "float32" = 4 ∧
    (s7_read_call { address := 0, count := 1, data_type := "uint8" }).length_bytes = 2 ∧
    1 * s7_type_width "uint8" = 1 ∧
    (s7_read_call { address := 0, count := 1, data_type := "float64" }).length_bytes = 2 ∧
    1 * s7_type_width "float64" = 8 ∧
    (2 : Nat) ≠ 4 ∧ (2 : Nat) ≠ 1 ∧ (2 : Nat) ≠ 8 := by
  decide

/-- C3 (code bug): an S7 write request targeting the process-input area
(`data_type = "input"`, e.g. the byte underlying `I0.0`) is not rejected —
`S7Protocol.write_data` has no read-only check, so the transport call
`write_area(PE, …)` is built and issued even though the library's own area
table (`Areas.AREA_INFO`) declares PE read-only. -/
theorem c3_s7_write_to_readonly_area_not_rejected :
    s7_write_call { address := 0, value := 1, data_type := "input" }
      = { area := .PE, db_number := 0, offset := 0 } ∧
    is_read_only (s7_write_call { address := 0, value := 1, data_type := "input" }).area
      = true := by
  decide

theorem try_bit_pattern_spec (c0 : Char) (ar : MemoryArea) (cs : List Char) (r : ParsedAddress)
    (h : try_bit_pattern c0 ar cs = some r) :
    r.type = "bit" ∧ r.size = 1 ∧ r.bit.isSome = true := by
  unfold try_bit_pattern at h
  repeat' split at h
  all_goals first
    | exact (Option.noConfusion h)
    | (injection h with h; subst h; simp)

theorem try_fixed_width_spec (c0 c1 : Char) (ar : MemoryArea) (ty : String) (sz : Nat)
    (cs : List Char) (r : ParsedAddress) (h : try_fixed_width c0 c1 ar ty sz cs = some r) :
    r.type = ty := by
  unfold try_fixed_width at h
  repeat' split at h
  all_goals first
    | exact (Option.noConfusion h)
    | (injection h with h; subst h; simp)

theorem try_db_word_spec (cs : List Char) (r : ParsedAddress)
    (h : try_db_word cs = some r) :
    r.type = "b" ∨ r.type = "w" ∨ r.type = "d" := by
  unfold try_db_word at h
  repeat' split at h
  all_goals first
    | exact (Option.noConfusion h)
    | (injection h with h; subst h; simp)

theorem try_db_bit_spec (cs : List Char) (r : ParsedAddress)
    (h : try_db_bit cs = some r) :
    r.type = "bit" ∧ r.size = 1 ∧ r.bit.isSome = true := by
  unfold try_db_bit at h
  repeat' split at h
  all_goals first
    | exact (Option.noConfusion h)
    | (injection h with h; subst h; simp)

theorem try_numbered_spec (c0 : Char) (ar : MemoryArea) (ty : String)
    (cs : List Char) (r : ParsedAddress) (h : try_numbered c0 ar ty cs = some r) :
    r.type = ty := by
  unfold try_numbered at h
  repeat' split at h
  all_goals first
    | exact (Option.noConfusion h)
    | (injection h with h; subst h; simp)

/-- C6 counterexample: the bit-address regexes constrain the bit group only
to `(\d+)`, so `"I0.9"` — a bit position greater than 7 — is accepted by the
resolver (with `bit = 9`) instead of being rejected with an address error. -/
theorem c6_bit_position_nine_accepted :
    parse_address "I0.9" =
      some { area := .PE, type := "bit", size := 1, byte := some 0, bit := some 9 } := by
  decide

/-- C6 (amended): every address string the resolver accepts as a bit
reference resolves with a size of 1 and a present bit position, but the bit
position is an arbitrary decimal number — the resolver does not restrict it
to `[0, 7]`, and in particular accepts `"I0.9"` with bit position 9.
Strings matching none of the documented forms are still rejected. -/
theorem c6_bit_addresses_size_one (s : String) (r : ParsedAddress)
    (h : parse_address s = some r) (hb : r.type = "bit") :
    r.size = 1 ∧ r.bit.isSome = true := by
  unfold parse_address at h
  obtain ⟨f, hf, hfr⟩ := List.exists_of_findSome?_eq_some h
  simp only [address_patterns, List.mem_cons, List.not_mem_nil, or_false] at hf
  rcases hf with rfl | rfl | rfl | rfl | rfl | rfl | rfl | rfl | rfl | rfl | rfl | rfl
    | rfl | rfl | rfl | rfl
  · exact (try_bit_pattern_spec _ _ _ _ hfr).2
  · exact (try_bit_pattern_spec _ _ _ _ hfr).2
  · exact (try_bit_pattern_spec _ _ _ _ hfr).2
  · exact absurd (try_fixed_width_spec _ _ _ _ _ _ _ hfr ▸ hb) (by decide)
  · exact absurd (try_fixed_width_spec _ _ _ _ _ _ _ hfr ▸ hb) (by decide)
  · exact absurd (try_fixed_width_spec _ _ _ _ _ _ _ hfr ▸ hb) (by decide)
  · exact absurd (try_fixed_width_spec _ _ _ _ _ _ _ hfr ▸ hb) (by decide)
  · exact absurd (try_fixed_width_spec _ _ _ _ _ _ _ hfr ▸ hb) (by decide)
  · exact absurd (try_fixed_width_spec _ _ _ _ _ _ _ hfr ▸ hb) (by decide)
  · exact absurd (try_fixed_width_spec _ _ _ _ _ _ _ hfr ▸ hb) (by decide)
  · exact absurd (try_fixed_width_spec _ _ _ _ _ _ _ hfr ▸ hb) (by decide)
  · exact absurd (try_fixed_width_spec _ _ _ _ _ _ _ hfr ▸ hb) (by decide)
  · rcases try_db_word_spec _ _ hfr with ht | ht | ht <;>
      exact absurd (ht ▸ hb) (by decide)
  · exact (try_db_bit_spec _ _ hfr).2
  · exact absurd (try_numbered_spec _ _ _ _ _ hfr ▸ hb) (by decide)
  · exact absurd (try_numbered_spec _ _ _ _ _ hfr ▸ hb) (by decide)

/-- Witness for `c6_bit_addresses_size_one` at the accepted address
`"I0.9"`. -/
theorem c6_bit_addresses_size_one_witness :
    ({ area := .PE, type := "bit", size := 1, byte := some 0,
       bit := some 9 } : ParsedAddress).size = 1 ∧
    ({ area := .PE, type := "bit", size := 1, byte := some 0,
       bit := some 9 } : ParsedAddress).bit.isSome = true :=
  c6_bit_addresses_size_one "I0.9"
    { area := .PE, type := "bit", size := 1, byte := some 0, bit := some 9 }
    (by decide) (by decide)

/-- C4 counterexample: an enabled mapping with `sync_mode = "on_change"`
whose source is the master node is never synced by the replication loop —
the loop's filter admits only `"continuous"` mappings, so neither on_change
nor periodic mappings are ever dispatched, whatever the source value or the
elapsed time. -/
theorem c4_on_change_mapping_never_synced :
    sync_iteration_mappings
      [{ source_plc := "A", source_address := "DB1.DBW100", source_data_type := "uint16",
         target_plc := "B", target_address := "200", target_data_type := "uint16",
         sync_mode := "on_change", sync_interval := 1000, enabled := true }] "A" = [] := by
  decide

/-- C4 (amended): in every iteration of the replication loop for a master
node, the mappings synced are exactly the enabled mappings whose source is
that node and whose `sync_mode` is `"continuous"`; mappings with
`sync_mode` `"on_change"` or `"periodic"` are never synced by the loop. -/
theorem c4_sync_iteration_continuous_only
    (mappings : List DataMapping) (plc_id : String) (m : DataMapping) :
    m ∈ sync_iteration_mappings mappings plc_id ↔
      m ∈ mappings ∧ m.source_plc = plc_id ∧ m.enabled = true ∧
        m.sync_mode = "continuous" := by
  simp [sync_iteration_mappings, List.mem_filter, and_assoc]

/-- C7 counterexample: register nodes `A` and `B`, add a mapping `A → B`,
then remove `B`.  The mapping referencing the now-unregistered node `B` is
still in the mapping set — `remove_plc` does not purge mappings. -/
theorem c7_mapping_survives_node_removal :
    (let nA : PLCNode := { id := "A", name := "A", is_master := true }
     let nB : PLCNode := { id := "B", name := "B" }
     let m : DataMapping :=
       { source_plc := "A", source_address := "0", source_data_type := "uint16",
         target_plc := "B", target_address := "1", target_data_type := "uint16" }
     let st1 := (add_plc { plcs := [], mappings := [] } nA true).2
     let st2 := (add_plc st1 nB true).2
     let st3 := (add_data_mapping st2 m).2
     let st4 := (remove_plc st3 "B").2
     st4.mappings = [m] ∧ has_plc st4 "B" = false) := by
  decide

/-- C7 (amended): `add_data_mapping` does fail (returning `False` with the
state unchanged) when either endpoint node is unregistered, but `remove_plc`
never removes mappings: the mapping set after a node removal is exactly the
one before, so mappings referencing the removed node remain. -/
theorem c7_mapping_registry
    (st : CommState) (m : DataMapping) (pid : String)
    (h : has_plc st m.source_plc = false ∨ has_plc st m.target_plc = false) :
    add_data_mapping st m = (false, st) ∧ (remove_plc st pid).2.mappings = st.mappings := by
  constructor
  · unfold add_data_mapping
    rcases h with h | h <;> simp [h]
  · unfold remove_plc
    split <;> rfl

/-- Witness for `c7_mapping_registry`: adding a mapping whose target `B` is
unregistered fails, and removing a node preserves the mapping list. -/
theorem c7_mapping_registry_witness :
    (has_plc { plcs := [{ id := "A", name := "A" }], mappings := [] }
        ({ source_plc := "A", source_address := "0", source_data_type := "uint16",
           target_plc := "B", target_address := "1",
           target_data_type := "uint16" } : DataMapping).source_plc = false ∨
      has_plc { plcs := [{ id := "A", name := "A" }], mappings := [] }
        ({ source_plc := "A", source_address := "0", source_data_type := "uint16",
           target_plc := "B", target_address := "1",
           target_data_type := "uint16" } : DataMapping).target_plc = false) ∧
    (add_data_mapping { plcs := [{ id := "A", name := "A" }], mappings := [] }
        { source_plc := "A", source_address := "0", source_data_type := "uint16",
          target_plc := "B", target_address := "1", target_data_type := "uint16" }
      = (false, { plcs := [{ id := "A", name := "A" }], mappings := [] }) ∧
      (remove_plc { plcs := [{ id := "A", name := "A" }], mappings := [] } "A").2.mappings
        = ({ plcs := [{ id := "A", name := "A" }], mappings := [] } : CommState).mappings) :=
  ⟨Or.inr (by decide),
    c7_mapping_registry { plcs := [{ id := "A", name := "A" }], mappings := [] }
      { source_plc := "A", source_address := "0", source_data_type := "uint16",
        target_plc := "B", target_address := "1", target_data_type := "uint16" }
      "A" (Or.inr (by decide))⟩

/-- C8: every completed operation increments exactly one of `success_count`
and `error_count` by one, and the updated running mean equals the incremental
form `mean + (sample - mean) / n` with `n` the post-update total of the two
counters — the code's `(mean * (n - 1) + sample) / n` agrees with it in
exact arithmetic (including the `n = 1` initialisation branch). -/
theorem c8_statistics_running_mean (st : ProtocolStats) (success : Bool) (rt : ℚ) :
    ((update_statistics st success rt).success_count,
      (update_statistics st success rt).error_count) =
      (if success then (st.success_count + 1, st.error_count)
       else (st.success_count, st.error_count + 1)) ∧
    (update_statistics st success rt).response_time_avg =
      st.response_time_avg +
        (rt - st.response_time_avg) /
          (((update_statistics st success rt).success_count +
            (update_statistics st success rt).error_count : Nat) : ℚ) := by
  have hq : ∀ n : Nat, (st.response_time_avg * (((n + 1 : Nat) : ℚ) - 1) + rt) / ((n + 1 : Nat) : ℚ)
      = st.response_time_avg + (rt - st.response_time_avg) / ((n + 1 : Nat) : ℚ) := by
    intro n
    have hne : ((n + 1 : Nat) : ℚ) ≠ 0 := by positivity
    field_simp
    ring
  cases success <;>
    · unfold update_statistics
      simp only [if_true, if_false, Bool.false_eq_true, ite_true, ite_false]
      split
      · rename_i h1
        refine ⟨by simp, ?_⟩
        simp only at h1 ⊢
        rw [h1]
        norm_num
      · rename_i h1
        refine ⟨by simp, ?_⟩
        simp only at h1 ⊢
        have := hq (st.success_count + st.error_count)
        convert this using 2 <;> push_cast <;> ring

theorem and_mask_eq_zero_iff (v k : Nat) : (v &&& 2 ^ k = 0) ↔ v.testBit k = false := by
  rw [Nat.and_two_pow]
  cases h : v.testBit k <;> simp

/-- C9: the decoded VFD status follows the priority
Fault > Warning > Running > Accelerating > Decelerating > Ready > Stopped
over the bits 15, 14, 0, 1, 2, 3 of the status word, and the `running` flag
is exactly bit 0 of the same word. -/
theorem c9_vfd_status_priority (v : Nat) :
    (v.testBit 15 = true → decode_status v = .fault) ∧
    (v.testBit 15 = false → v.testBit 14 = true → decode_status v = .warning) ∧
    (v.testBit 15 = false → v.testBit 14 = false → v.testBit 0 = true →
      decode_status v = .running) ∧
    (v.testBit 15 = false → v.testBit 14 = false → v.testBit 0 = false →
      v.testBit 1 = true → decode_status v = .accelerating) ∧
    (v.testBit 15 = false → v.testBit 14 = false → v.testBit 0 = false →
      v.testBit 1 = false → v.testBit 2 = true → decode_status v = .decelerating) ∧
    (v.testBit 15 = false → v.testBit 14 = false → v.testBit 0 = false →
      v.testBit 1 = false → v.testBit 2 = false → v.testBit 3 = true →
      decode_status v = .ready) ∧
    (v.testBit 15 = false → v.testBit 14 = false → v.testBit 0 = false →
      v.testBit 1 = false → v.testBit 2 = false → v.testBit 3 = false →
      decode_status v = .stopped) ∧
    read_status_running v = v.testBit 0 := by
  have g15 : (v &&& 32768 = 0) ↔ (v.testBit 15 = false) := by
    rw [show (32768 : Nat) = 2 ^ 15 by norm_num]; exact and_mask_eq_zero_iff v 15
  have g14 : (v &&& 16384 = 0) ↔ (v.testBit 14 = false) := by
    rw [show (16384 : Nat) = 2 ^ 14 by norm_num]; exact and_mask_eq_zero_iff v 14
  have g0 : (v &&& 1 = 0) ↔ (v.testBit 0 = false) := by
    rw [show (1 : Nat) = 2 ^ 0 by norm_num]; exact and_mask_eq_zero_iff v 0
  have g1 : (v &&& 2 = 0) ↔ (v.testBit 1 = false) := by
    rw [show (2 : Nat) = 2 ^ 1 by norm_num]; exact and_mask_eq_zero_iff v 1
  have g2 : (v &&& 4 = 0) ↔ (v.testBit 2 = false) := by
    rw [show (4 : Nat) = 2 ^ 2 by norm_num]; exact and_mask_eq_zero_iff v 2
  have g3 : (v &&& 8 = 0) ↔ (v.testBit 3 = false) := by
    rw [show (8 : Nat) = 2 ^ 3 by norm_num]; exact and_mask_eq_zero_iff v 3
  unfold decode_status read_status_running
  refine ⟨?_, ?_, ?_, ?_, ?_, ?_, ?_, ?_⟩
  · intro b15
    rw [if_pos (by simp [g15, b15])]
  · intro b15 b14
    rw [if_neg (by simp [g15, b15]), if_pos (by simp [g14, b14])]
  · intro b15 b14 b0
    rw [if_neg (by simp [g15, b15]), if_neg (by simp [g14, b14]),
      if_pos (by simp [Nat.mod_two_eq_one_iff_testBit_zero, Nat.mod_two_eq_zero_iff_testBit_zero, b0])]
  · intro b15 b14 b0 b1
    rw [if_neg (by simp [g15, b15]), if_neg (by simp [g14, b14]),
      if_neg (by simp [Nat.mod_two_eq_one_iff_testBit_zero, Nat.mod_two_eq_zero_iff_testBit_zero, b0]), if_pos (by simp [g1, b1])]
  · intro b15 b14 b0 b1 b2
    rw [if_neg (by simp [g15, b15]), if_neg (by simp [g14, b14]),
      if_neg (by simp [Nat.mod_two_eq_one_iff_testBit_zero, Nat.mod_two_eq_zero_iff_testBit_zero, b0]), if_neg (by simp [g1, b1]), if_pos (by simp [g2, b2])]
  · intro b15 b14 b0 b1 b2 b3
    rw [if_neg (by simp [g15, b15]), if_neg (by simp [g14, b14]),
      if_neg (by simp [Nat.mod_two_eq_one_iff_testBit_zero, Nat.mod_two_eq_zero_iff_testBit_zero, b0]), if_neg (by simp [g1, b1]), if_neg (by simp [g2, b2]),
      if_pos (by simp [g3, b3])]
  · intro b15 b14 b0 b1 b2 b3
    rw [if_neg (by simp [g15, b15]), if_neg (by simp [g14, b14]),
      if_neg (by simp [Nat.mod_two_eq_one_iff_testBit_zero, Nat.mod_two_eq_zero_iff_testBit_zero, b0]), if_neg (by simp [g1, b1]), if_neg (by simp [g2, b2]),
      if_neg (by simp [g3, b3])]
  · cases hb : v.testBit 0 <;>
      simp [bne_iff_ne, Nat.mod_two_eq_one_iff_testBit_zero,
        Nat.mod_two_eq_zero_iff_testBit_zero, hb]

/-- Witness for `c9_vfd_status_priority`: the word `0x8001` (fault and
running bits both set) decodes to Fault, and `0x0001` to Running. -/
theorem c9_vfd_status_priority_witness :
    decode_status 32769 = VFDStatus.fault ∧ decode_status 1 = VFDStatus.running :=
  ⟨(c9_vfd_status_priority 32769).1 (by decide),
    (c9_vfd_status_priority 1).2.2.1 (by decide) (by decide) (by decide)⟩

/-- C10: every register write issued through the VFD facade goes through
`_write_register` and is therefore sent with `data_type = "float32"`,
including the command writes of `start_drive`, `stop_drive` and
`reset_fault`, which write the value `1` to their command registers. -/
theorem c10_vfd_writes_are_float32
    (a : Nat) (v : ℚ) (mf f ms sp t : ℚ) (r1 r2 : VFDWriteRequest)
    (h1 : set_frequency_request mf f = some r1)
    (h2 : set_speed_request ms sp = some r2) :
    (vfd_write_register a v).data_type = "float32" ∧
    start_drive_request = { address := 1, value := 1, data_type := "float32" } ∧
    stop_drive_request = { address := 2, value := 1, data_type := "float32" } ∧
    reset_fault_request = { address := 9216, value := 1, data_type := "float32" } ∧
    r1.data_type = "float32" ∧ r2.data_type = "float32" ∧
    (set_torque_request t).data_type = "float32" := by
  refine ⟨rfl, rfl, rfl, rfl, ?_, ?_, rfl⟩
  · unfold set_frequency_request at h1
    split at h1
    · exact Option.noConfusion h1
    · injection h1 with h1
      subst h1
      rfl
  · unfold set_speed_request at h2
    split at h2
    · exact Option.noConfusion h2
    · injection h2 with h2
      subst h2
      rfl

/-- Witness for `c10_vfd_writes_are_float32` at a frequency setpoint of 30 Hz
(bound 60 Hz) and a speed setpoint of 100 RPM (bound 1750 RPM). -/
theorem c10_vfd_writes_are_float32_witness :
    (vfd_write_register 8704 (25 : ℚ)).data_type = "float32" ∧
    start_drive_request = { address := 1, value := 1, data_type := "float32" } ∧
    stop_drive_request = { address := 2, value := 1, data_type := "float32" } ∧
    reset_fault_request = { address := 9216, value := 1, data_type := "float32" } ∧
    (vfd_write_register (vfd_register_map "frequency_setpoint") (30 : ℚ)).data_type
      = "float32" ∧
    (vfd_write_register (vfd_register_map "speed_setpoint") (100 : ℚ)).data_type
      = "float32" ∧
    (set_torque_request (5 : ℚ)).data_type = "float32" :=
  c10_vfd_writes_are_float32 8704 25 60 30 1750 100 5
    (vfd_write_register (vfd_register_map "frequency_setpoint") 30)
    (vfd_write_register (vfd_register_map "speed_setpoint") 100)
    (by norm_num [set_frequency_request])
    (by norm_num [set_speed_request])

